import Mathlib

/-!
A shallow embedding of the GeoSnap image-location pipeline and proofs about it.

The embedding follows the repository's source:
* `src/services/locationService.ts` — `extractImageMetadata`, `reverseGeocode`;
* the Gemini service — `guessLocationWithAI`;
* the application component — `processFile`, `handleAiGuess`, and the reachable
  record states of the UI.

JavaScript values are modelled explicitly: a JS `number` is `JsNumber`
(NaN, the two infinities, or a finite rational), `undefined` is `Option.none`,
and JS truthiness (`0`, `NaN`, `""`, `undefined` are falsy) is spelled out by
the `truthy`/`jsTruthy…` functions. External effects (the EXIF parse, the
geocoding fetch, the AI call) are passed in as explicit outcome values, so
every function of the embedding is a total, executable Lean function.
-/

namespace GeoSnap

/-- A JavaScript number: NaN, an infinity, or a finite value (modelled as a
rational, which is exact for every EXIF tag value of interest). -/
inductive JsNumber where
  | nan
  | posInf
  | negInf
  | finite (q : ℚ)
deriving DecidableEq

/-- JS truthiness of a number: `0`, `-0` and `NaN` are falsy, everything else
(including the infinities) is truthy. -/
def JsNumber.truthy : JsNumber → Bool
  | .nan => false
  | .posInf => true
  | .negInf => true
  | .finite q => decide (q ≠ 0)

/-- Whether a JS number is a finite number (`Number.isFinite`). -/
def JsNumber.isFiniteNum : JsNumber → Bool
  | .finite _ => true
  | _ => false

/-- JS truthiness of a possibly-`undefined` number. -/
def jsTruthyNum : Option JsNumber → Bool
  | none => false
  | some v => v.truthy

/-- JS truthiness of a possibly-`undefined` string: `undefined` and `""` are
falsy. -/
def jsTruthyStr : Option String → Bool
  | none => false
  | some s => decide (s ≠ "")

/-- JS truthiness of a possibly-`undefined` boolean. -/
def jsTruthyBool : Option Bool → Bool
  | none => false
  | some b => b

/-- A JS `Date` object, abstracted to its timestamp. As an object it is always
truthy, so presence is exactly `Option.isSome`. -/
abbrev JsDate := Nat

/-- `GeoLocation` from `src/types.ts`: `{ lat: number; lng: number }`. -/
structure GeoLocation where
  lat : JsNumber
  lng : JsNumber
deriving DecidableEq

/-- `ExifDetails` from `src/types.ts`; every field is optional. -/
structure ExifDetails where
  make : Option String
  model : Option String
  exposureTime : Option JsNumber
  fNumber : Option JsNumber
  iso : Option JsNumber
  focalLength : Option JsNumber
  lensModel : Option String
deriving DecidableEq

/-- The tag record produced by `exifr.parse`: each tag of interest is present
or `undefined`. -/
structure ExifOutput where
  latitude : Option JsNumber
  longitude : Option JsNumber
  DateTimeOriginal : Option JsDate
  CreateDate : Option JsDate
  Make : Option String
  Model : Option String
  ExposureTime : Option JsNumber
  FNumber : Option JsNumber
  ISO : Option JsNumber
  FocalLength : Option JsNumber
  LensModel : Option String
deriving DecidableEq

/-- The result shape of `extractImageMetadata`. -/
structure MetadataResult where
  location : Option GeoLocation
  date : Option JsDate
  exifDetails : Option ExifDetails
deriving DecidableEq

/-- `extractImageMetadata` from `src/services/locationService.ts`.

The outcome of `await exifr.parse(file)` is passed in explicitly:
`Except.error ()` models the parser throwing (a corrupt block), `Except.ok
none` models it resolving to `undefined` (no metadata block), and
`Except.ok (some o)` models a parsed tag record `o`. The `catch` branch of
the source returns the all-`null` record. -/
def extractImageMetadata (parseOutcome : Except Unit (Option ExifOutput)) :
    MetadataResult :=
  match parseOutcome with
  | .error _ => { location := none, date := none, exifDetails := none }
  | .ok output =>
    let location : Option GeoLocation :=
      match output with
      | some o =>
        if jsTruthyNum o.latitude && jsTruthyNum o.longitude then
          some { lat := o.latitude.getD (.finite 0),
                 lng := o.longitude.getD (.finite 0) }
        else none
      | none => none
    let date : Option JsDate :=
      match output with
      | some o =>
        if o.DateTimeOriginal.isSome then o.DateTimeOriginal else o.CreateDate
      | none => none
    let exifDetails : Option ExifDetails :=
      match output with
      | some o =>
        let d : ExifDetails :=
          { make := o.Make, model := o.Model, exposureTime := o.ExposureTime,
            fNumber := o.FNumber, iso := o.ISO, focalLength := o.FocalLength,
            lensModel := o.LensModel }
        let hasData := d.make.isSome || d.model.isSome ||
          d.exposureTime.isSome || d.fNumber.isSome || d.iso.isSome ||
          d.focalLength.isSome || d.lensModel.isSome
        if hasData then some d else none
      | none => none
    { location := location, date := date, exifDetails := exifDetails }

/-- The `address` object of a Nominatim reverse-geocoding response; every
field may be absent. -/
structure NominatimAddress where
  city : Option String
  town : Option String
  village : Option String
  hamlet : Option String
  state : Option String
  region : Option String
  country : Option String
deriving DecidableEq

/-- The parsed JSON body of a Nominatim response. -/
structure NominatimData where
  address : Option NominatimAddress
  display_name : Option String
deriving DecidableEq

/-- The possible outcomes of the `fetch` in `reverseGeocode`: the network
request rejects, or a response arrives with an `ok` flag and a JSON body that
either parses or throws. -/
inductive FetchOutcome where
  | networkError
  | response (ok : Bool) (json : Except Unit NominatimData)

/-- JS `a || b` on possibly-`undefined` strings: `a` when truthy, else `b`. -/
def jsOrStr (a b : Option String) : Option String :=
  if jsTruthyStr a then a else b

/-- The city resolution of `reverseGeocode`:
`address.city || address.town || address.village || address.hamlet`. -/
def cityOf (address : NominatimAddress) : Option String :=
  jsOrStr (jsOrStr (jsOrStr address.city address.town) address.village)
    address.hamlet

/-- `LocationInfo` from `src/types.ts`: optional city/state/country and a
required `displayName`. -/
structure LocationInfo where
  city : Option String
  state : Option String
  country : Option String
  displayName : String
deriving DecidableEq

/-- How a possibly-`undefined` string renders inside a JS template literal:
`undefined` prints as the text `"undefined"`. -/
def jsTemplateArg : Option String → String
  | none => "undefined"
  | some s => s

/-- `reverseGeocode` from `src/services/locationService.ts`. The outcome of
the `fetch` is passed in explicitly; the `catch` branch of the source (network
error, non-`ok` response, JSON parse throw) returns `null`. -/
def reverseGeocode (coords : GeoLocation) (fetchOutcome : FetchOutcome) :
    Option LocationInfo :=
  match fetchOutcome with
  | .networkError => none
  | .response ok json =>
    if !ok then none
    else
      match json with
      | .error _ => none
      | .ok data =>
        let address := data.address.getD
          { city := none, town := none, village := none, hamlet := none,
            state := none, region := none, country := none }
        let city := cityOf address
        let state := jsOrStr address.state address.region
        let country := address.country
        some { city := city, state := state, country := country,
               displayName :=
                 if jsTruthyStr data.display_name then
                   data.display_name.getD ""
                 else jsTemplateArg city ++ ", " ++ jsTemplateArg country }

/-- Whether a `fetch` outcome is a failure for `reverseGeocode`: network
error, non-success response, or malformed JSON body. -/
def fetchFails : FetchOutcome → Bool
  | .networkError => true
  | .response ok json =>
    !ok || (match json with | .error _ => true | .ok _ => false)

/-- `AIAnalysisResult` from `src/types.ts`: `locationName`, `confidence` and
`reasoning` are required, the coordinates optional. -/
structure AIAnalysisResult where
  locationName : String
  lat : Option JsNumber
  lng : Option JsNumber
  confidence : JsNumber
  reasoning : String
deriving DecidableEq

/-- The failure modes of `guessLocationWithAI`. -/
inductive AIError where
  | missingApiKey
  | networkFailure
  | noResponseText
  | jsonParseFailure
deriving DecidableEq

/-- The possible outcomes of the Gemini `generateContent` call: the request
rejects, or a response arrives with a `text` field (possibly `undefined` or
empty) whose `JSON.parse` either yields a structured result or throws. -/
inductive AIResponse where
  | netFailure
  | ok (text : Option String) (parsed : Except Unit AIAnalysisResult)

/-- An uploaded image file, abstracted to the attributes the pipeline reads. -/
structure File where
  name : String
  type : String
deriving DecidableEq

/-- `guessLocationWithAI` from the Gemini service. The second component of
the result counts how many network requests were issued: the missing-key
check happens before any request, every other path issues exactly one. A
returned `Except.error` models the function throwing to its caller. -/
def guessLocationWithAI (apiKey : Option String) (file : File)
    (resp : AIResponse) : Except AIError AIAnalysisResult × Nat :=
  if !jsTruthyStr apiKey then (.error .missingApiKey, 0)
  else
    match resp with
    | .netFailure => (.error .networkFailure, 1)
    | .ok text parsed =>
      if !jsTruthyStr text then (.error .noResponseText, 1)
      else
        match parsed with
        | .error _ => (.error .jsonParseFailure, 1)
        | .ok result => (.ok result, 1)

/-- Whether the AI call fails: missing credential, network failure, empty
response text, or a response text whose `JSON.parse` throws. -/
def aiCallFails (apiKey : Option String) (resp : AIResponse) : Bool :=
  !jsTruthyStr apiKey ||
    (match resp with
     | .netFailure => true
     | .ok text parsed =>
       !jsTruthyStr text ||
         (match parsed with | .error _ => true | .ok _ => false))

/-- `ProcessedImage` from `src/types.ts`: the canonical per-image record held
in the application state. -/
structure ProcessedImage where
  file : File
  previewUrl : String
  exifLocation : Option GeoLocation
  exifDate : Option JsDate
  exifDetails : Option ExifDetails
  locationInfo : Option LocationInfo
  gpsFound : Bool
  aiGuessed : Option Bool
  aiConfidence : Option JsNumber
  aiReasoning : Option String
deriving DecidableEq

/-- `processFile` from the application component: extract metadata, reverse
geocode when a coordinate was found, and build the record. `gpsFound` is
`!!exifLocation`, and the AI fields are left `undefined`. -/
def processFile (file : File) (previewUrl : String)
    (parseOutcome : Except Unit (Option ExifOutput))
    (fetchOutcome : FetchOutcome) : ProcessedImage :=
  let m := extractImageMetadata parseOutcome
  let locationInfo : Option LocationInfo :=
    match m.location with
    | some loc => reverseGeocode loc fetchOutcome
    | none => none
  { file := file, previewUrl := previewUrl,
    exifLocation := m.location,
    exifDate := m.date,
    exifDetails := m.exifDetails,
    locationInfo := locationInfo,
    gpsFound := m.location.isSome,
    aiGuessed := none, aiConfidence := none, aiReasoning := none }

/-- The user-facing message set by `handleAiGuess` when the AI call throws. -/
def aiErrorMessage : String :=
  "AI analysis failed. Please try again or use a different image."

/-- `handleAiGuess` from the application component, as a transform of the
prior record. On a successful AI result it merges the guess into the record
(the coordinate only when both `lat` and `lng` are truthy); when the call
threw it leaves the record untouched and surfaces the error message (the
second component). -/
def handleAiGuess (prev : ProcessedImage)
    (aiCall : Except AIError AIAnalysisResult) :
    ProcessedImage × Option String :=
  match aiCall with
  | .error _ => (prev, some aiErrorMessage)
  | .ok result =>
    ({ prev with
        exifLocation :=
          if jsTruthyNum result.lat && jsTruthyNum result.lng then
            some { lat := result.lat.getD (.finite 0),
                   lng := result.lng.getD (.finite 0) }
          else none,
        locationInfo := some { city := none, state := none, country := none,
                               displayName := result.locationName },
        aiGuessed := some true,
        aiConfidence := some result.confidence,
        aiReasoning := some result.reasoning }, none)

/-- The records reachable in the application. A record is created by
`processFile`; the AI-guess action is offered by the UI only on records with
`gpsFound` false and `aiGuessed` not yet truthy, and either merges a
successful result or (on a thrown error) leaves the record as it was. -/
inductive Reachable : ProcessedImage → Prop where
  | process (file : File) (previewUrl : String)
      (parseOutcome : Except Unit (Option ExifOutput))
      (fetchOutcome : FetchOutcome) :
      Reachable (processFile file previewUrl parseOutcome fetchOutcome)
  | aiGuess (d : ProcessedImage) (result : AIAnalysisResult) :
      Reachable d → d.gpsFound = false → jsTruthyBool d.aiGuessed = false →
      Reachable (handleAiGuess d (.ok result)).1
  | aiFail (d : ProcessedImage) (e : AIError) :
      Reachable d → d.gpsFound = false → jsTruthyBool d.aiGuessed = false →
      Reachable (handleAiGuess d (.error e)).1

/-! Concrete sample values used by the witness theorems. -/

/-- A sample uploaded file. -/
def sampleFile : File := { name := "photo.jpg", type := "image/jpeg" }

/-- A sample prior record with no GPS coordinate but with a capture date and
camera details already extracted. -/
def samplePrev : ProcessedImage :=
  { file := sampleFile, previewUrl := "blob:preview",
    exifLocation := none,
    exifDate := some 1700000000,
    exifDetails := some { make := some "Canon", model := some "EOS R5",
                          exposureTime := some (.finite (1 / 200)),
                          fNumber := some (.finite 4),
                          iso := some (.finite 100),
                          focalLength := none, lensModel := none },
    locationInfo := none, gpsFound := false, aiGuessed := none,
    aiConfidence := none, aiReasoning := none }

/-- A sample successful AI guess that carries both coordinates. -/
def sampleAiResult : AIAnalysisResult :=
  { locationName := "Paris, France", lat := some (.finite 48),
    lng := some (.finite 2), confidence := .finite 72,
    reasoning := "Eiffel Tower visible" }

/-- A sample AI guess whose provided latitude is exactly 0. -/
def zeroLatGuess : AIAnalysisResult :=
  { locationName := "Gulf of Guinea", lat := some (.finite 0),
    lng := some (.finite 5), confidence := .finite 40,
    reasoning := "Open ocean near the equator" }

/-- A sample EXIF tag record taken on the equator: latitude 0, longitude 1,
both present and finite. -/
def equatorOutput : ExifOutput :=
  { latitude := some (.finite 0), longitude := some (.finite 1),
    DateTimeOriginal := none, CreateDate := none, Make := none, Model := none,
    ExposureTime := none, FNumber := none, ISO := none, FocalLength := none,
    LensModel := none }

/-- A sample Nominatim address with `town` and `village` set and no `city`. -/
def sampleAddress : NominatimAddress :=
  { city := none, town := some "Greenville", village := some "Riverdale",
    hamlet := none, state := some "Karnataka", region := none,
    country := some "India" }

/-- The parse outcome of an image with no metadata block. -/
def noGpsParse : Except Unit (Option ExifOutput) := Except.ok none

/-! The claims. -/

/-- Claim C1: the claim says that a GPS block whose latitude and longitude
both parse to finite numbers always yields a coordinate equal to the tag
values, explicitly including zero values such as latitude 0 on the equator.
The code checks the tags with JS truthiness (`output.latitude &&
output.longitude`), so a present, finite latitude equal to 0 is dropped and
the coordinate comes back absent — the exact confusion of "equator" with "no
GPS tag" that the data model says is avoided. This theorem evaluates the
embedded extractor at the failing input. -/
theorem extract_zero_latitude_bug :
    equatorOutput.latitude = some (.finite 0) ∧
    equatorOutput.longitude = some (.finite 1) ∧
    (equatorOutput.latitude.getD .nan).isFiniteNum = true ∧
    (equatorOutput.longitude.getD .nan).isFiniteNum = true ∧
    (extractImageMetadata (.ok (some equatorOutput))).location = none := by
  decide

/-- Claim C2: whenever the AI call fails (missing credential, network
failure, empty response text, or unparsable structured response),
`guessLocationWithAI` throws, and `handleAiGuess` leaves the prior record —
in particular `exifLocation`, `exifDate`, `exifDetails` — unchanged while
surfacing a user-facing error message. -/
theorem aiGuess_failure_preserves_record (prev : ProcessedImage)
    (apiKey : Option String) (file : File) (resp : AIResponse)
    (h : aiCallFails apiKey resp = true) :
    (∃ e, (guessLocationWithAI apiKey file resp).1 = Except.error e) ∧
    (handleAiGuess prev (guessLocationWithAI apiKey file resp).1).1 = prev ∧
    ((handleAiGuess prev (guessLocationWithAI apiKey file resp).1).2).isSome
      = true := by
  have key : ∃ e, (guessLocationWithAI apiKey file resp).1 = Except.error e := by
    cases hk : jsTruthyStr apiKey with
    | false => exact ⟨.missingApiKey, by simp [guessLocationWithAI, hk]⟩
    | true =>
      cases resp with
      | netFailure => exact ⟨.networkFailure, by simp [guessLocationWithAI, hk]⟩
      | ok text parsed =>
        cases ht : jsTruthyStr text with
        | false =>
          exact ⟨.noResponseText, by simp [guessLocationWithAI, hk, ht]⟩
        | true =>
          cases parsed with
          | error u =>
            exact ⟨.jsonParseFailure, by simp [guessLocationWithAI, hk, ht]⟩
          | ok r => exact absurd h (by simp [aiCallFails, hk, ht])
  obtain ⟨e, he⟩ := key
  refine ⟨⟨e, he⟩, ?_, ?_⟩ <;> rw [he] <;> rfl

/-- Witness for C2 at a concrete record and a failing (network-error) call. -/
theorem aiGuess_failure_preserves_record_witness :
    aiCallFails none .netFailure = true ∧
    (handleAiGuess samplePrev
        (guessLocationWithAI none sampleFile .netFailure).1).1 = samplePrev :=
  ⟨rfl,
    (aiGuess_failure_preserves_record samplePrev none sampleFile .netFailure
      rfl).2.1⟩

/-- Claim C3: over every reachable record, `gpsFound` is true exactly when
the record is the direct output of `processFile` with a coordinate extracted
from the embedded tags (and `exifLocation` is that extracted coordinate), and
a truthy `aiGuessed` implies `gpsFound` is false — the AI fallback never
overrides an embedded-GPS coordinate. -/
theorem gpsFound_provenance (d : ProcessedImage) (h : Reachable d) :
    (jsTruthyBool d.aiGuessed = true → d.gpsFound = false) ∧
    (d.gpsFound = true ↔
      ∃ file previewUrl parseOutcome fetchOutcome,
        d = processFile file previewUrl parseOutcome fetchOutcome ∧
        d.exifLocation = (extractImageMetadata parseOutcome).location ∧
        (extractImageMetadata parseOutcome).location.isSome = true) := by
  have backward : ∀ x : ProcessedImage,
      (∃ file previewUrl parseOutcome fetchOutcome,
        x = processFile file previewUrl parseOutcome fetchOutcome ∧
        x.exifLocation = (extractImageMetadata parseOutcome).location ∧
        (extractImageMetadata parseOutcome).location.isSome = true) →
      x.gpsFound = true := by
    rintro x ⟨f, u, p, fe, rfl, hl, hs⟩
    exact hs
  induction h with
  | process file previewUrl parseOutcome fetchOutcome =>
    refine ⟨fun hA => Bool.noConfusion hA, ⟨fun hG => ?_, backward _⟩⟩
    exact ⟨file, previewUrl, parseOutcome, fetchOutcome, rfl, rfl, hG⟩
  | aiGuess d result hr hg ha ih =>
    refine ⟨fun _ => hg, ⟨fun hG => ?_, backward _⟩⟩
    exact Bool.noConfusion (hg.symm.trans hG)
  | aiFail d e hr hg ha ih =>
    exact ih

/-- Witness for C3 at a concrete reachable record: a no-GPS image followed by
a successful AI guess has a truthy `aiGuessed` and `gpsFound` false. -/
theorem gpsFound_provenance_witness :
    ((handleAiGuess (processFile sampleFile "blob:p" noGpsParse .networkError)
        (.ok sampleAiResult)).1).gpsFound = false := by
  have hreach : Reachable (handleAiGuess
      (processFile sampleFile "blob:p" noGpsParse .networkError)
      (.ok sampleAiResult)).1 :=
    Reachable.aiGuess _ sampleAiResult
      (Reachable.process sampleFile "blob:p" noGpsParse .networkError) rfl rfl
  exact (gpsFound_provenance _ hreach).1 rfl

/-- Counterexample for C4 as stated: the AI guess `zeroLatGuess` provides
both a latitude (0) and a longitude (5), yet the merged record's
`exifLocation` is absent, because the code tests the coordinates with JS
truthiness rather than presence. -/
theorem aiMerge_drops_zero_coordinate :
    zeroLatGuess.lat.isSome = true ∧ zeroLatGuess.lng.isSome = true ∧
    (handleAiGuess samplePrev (.ok zeroLatGuess)).1.exifLocation = none := by
  decide

/-- Claim C4 (amended): on a successful AI result the merge sets
`exifLocation` to the guess's coordinate exactly when both `lat` and `lng`
are provided and truthy (nonzero, non-NaN); otherwise `exifLocation` is
absent. It sets `locationInfo` to just the guess's location name, sets
`aiGuessed` truthy, copies `aiConfidence` and `aiReasoning`, and preserves
the prior record's `exifDate` and `exifDetails` untouched. -/
theorem aiMerge_sets_fields (prev : ProcessedImage)
    (result : AIAnalysisResult) :
    (jsTruthyNum result.lat = true → jsTruthyNum result.lng = true →
      (handleAiGuess prev (.ok result)).1.exifLocation =
        some { lat := result.lat.getD (.finite 0),
               lng := result.lng.getD (.finite 0) }) ∧
    ((jsTruthyNum result.lat = false ∨ jsTruthyNum result.lng = false) →
      (handleAiGuess prev (.ok result)).1.exifLocation = none) ∧
    (handleAiGuess prev (.ok result)).1.locationInfo =
      some { city := none, state := none, country := none,
             displayName := result.locationName } ∧
    jsTruthyBool (handleAiGuess prev (.ok result)).1.aiGuessed = true ∧
    (handleAiGuess prev (.ok result)).1.aiConfidence =
      some result.confidence ∧
    (handleAiGuess prev (.ok result)).1.aiReasoning =
      some result.reasoning ∧
    (handleAiGuess prev (.ok result)).1.exifDate = prev.exifDate ∧
    (handleAiGuess prev (.ok result)).1.exifDetails = prev.exifDetails := by
  refine ⟨?_, ?_, rfl, rfl, rfl, rfl, rfl, rfl⟩
  · intro h1 h2
    simp [handleAiGuess, h1, h2]
  · intro h
    rcases h with h | h <;> simp [handleAiGuess, h]

/-- Witness for C4 (amended) at a concrete record and guess. -/
theorem aiMerge_sets_fields_witness :
    jsTruthyNum sampleAiResult.lat = true ∧
    jsTruthyNum sampleAiResult.lng = true ∧
    (handleAiGuess samplePrev (.ok sampleAiResult)).1.exifLocation =
      some { lat := .finite 48, lng := .finite 2 } ∧
    (handleAiGuess samplePrev (.ok sampleAiResult)).1.exifDate =
      samplePrev.exifDate := by
  have h := aiMerge_sets_fields samplePrev sampleAiResult
  exact ⟨by decide, by decide, h.1 (by decide) (by decide),
    h.2.2.2.2.2.2.1⟩

/-- Claim C5: `extractImageMetadata` never propagates an error (the
embedding is a total function on all parse outcomes, including the thrown
and the no-metadata cases), and in the parse-error and no-block cases the
coordinate, date and camera details are all absent. -/
theorem extract_absorbs_parse_failure :
    extractImageMetadata (Except.error ()) =
      { location := none, date := none, exifDetails := none } ∧
    extractImageMetadata (Except.ok none) =
      { location := none, date := none, exifDetails := none } :=
  ⟨rfl, rfl⟩

/-- Claim C6: camera-details absence is all-or-nothing — if any of the seven
source tags (make, model, exposure time, f-number, ISO, focal length, lens
model) is present, `extractImageMetadata` returns them verbatim in a
non-absent `exifDetails`; if all seven are absent it returns `none`, not an
all-empty object. -/
theorem exifDetails_all_or_nothing (o : ExifOutput) :
    (extractImageMetadata (Except.ok (some o))).exifDetails =
      (if o.Make.isSome || o.Model.isSome || o.ExposureTime.isSome ||
          o.FNumber.isSome || o.ISO.isSome || o.FocalLength.isSome ||
          o.LensModel.isSome then
        some { make := o.Make, model := o.Model,
               exposureTime := o.ExposureTime, fNumber := o.FNumber,
               iso := o.ISO, focalLength := o.FocalLength,
               lensModel := o.LensModel }
      else none) := rfl

/-- Claim C7: for every coordinate, `reverseGeocode` returns an absent
result on every failing fetch outcome — network error, non-success response,
or malformed JSON body — and (being a total function) never raises. -/
theorem reverseGeocode_fails_soft (coords : GeoLocation) (o : FetchOutcome)
    (h : fetchFails o = true) : reverseGeocode coords o = none := by
  cases o with
  | networkError => rfl
  | response ok json =>
    cases ok with
    | false => rfl
    | true =>
      cases json with
      | error u => rfl
      | ok data => exact Bool.noConfusion h

/-- Witness for C7 at a concrete coordinate and a network error. -/
theorem reverseGeocode_fails_soft_witness :
    fetchFails .networkError = true ∧
    reverseGeocode { lat := .finite 12, lng := .finite 77 } .networkError
      = none :=
  ⟨rfl, reverseGeocode_fails_soft { lat := .finite 12, lng := .finite 77 }
    .networkError rfl⟩

/-- Claim C8: `reverseGeocode` resolves the city with precedence city, else
town, else village, else hamlet, first JS-truthy (non-empty) value winning;
in particular, with no truthy city and a truthy town the resolved city is the
town, whatever the village holds. -/
theorem reverseGeocode_city_precedence (coords : GeoLocation)
    (data : NominatimData) (addr : NominatimAddress)
    (haddr : data.address = some addr) :
    Option.map LocationInfo.city
        (reverseGeocode coords (.response true (.ok data))) =
      some (cityOf addr) ∧
    (jsTruthyStr addr.city = true → cityOf addr = addr.city) ∧
    (jsTruthyStr addr.city = false → jsTruthyStr addr.town = true →
      cityOf addr = addr.town) ∧
    (jsTruthyStr addr.city = false → jsTruthyStr addr.town = false →
      jsTruthyStr addr.village = true → cityOf addr = addr.village) ∧
    (jsTruthyStr addr.city = false → jsTruthyStr addr.town = false →
      jsTruthyStr addr.village = false → cityOf addr = addr.hamlet) := by
  obtain ⟨da, dn⟩ := data
  simp only at haddr
  subst haddr
  refine ⟨?_, ?_, ?_, ?_, ?_⟩
  · simp [reverseGeocode]
  · intro hc
    simp [cityOf, jsOrStr, hc]
  · intro hc ht
    simp [cityOf, jsOrStr, hc, ht]
  · intro hc ht hv
    simp [cityOf, jsOrStr, hc, ht, hv]
  · intro hc ht hv
    simp [cityOf, jsOrStr, hc, ht, hv]

/-- Witness for C8: with `town` and `village` set and no `city`, the resolved
city of the geocoded result equals the town. -/
theorem reverseGeocode_city_precedence_witness :
    Option.map LocationInfo.city
        (reverseGeocode { lat := .finite 12, lng := .finite 77 }
          (.response true (.ok { address := some sampleAddress,
                                 display_name := some "Greenville, India" })))
      = some (some "Greenville") := by
  have h := reverseGeocode_city_precedence
    { lat := .finite 12, lng := .finite 77 }
    { address := some sampleAddress, display_name := some "Greenville, India" }
    sampleAddress rfl
  have hc := h.2.2.1 (by decide) (by decide)
  rw [h.1, hc]
  rfl

/-- Claim C9: with the API credential absent, `guessLocationWithAI` fails
with the missing-key error and issues zero network requests, for every input
file and every would-be network outcome. -/
theorem guessLocationWithAI_requires_key (file : File) (resp : AIResponse) :
    guessLocationWithAI none file resp =
      (Except.error .missingApiKey, 0) := rfl

/-- Claim C10: on every successful AI result, the merged record's
`locationInfo` consists solely of the guess's location name as
`displayName`; any city, state or country of the prior record's
`locationInfo` are discarded. -/
theorem aiMerge_replaces_locationInfo (prev : ProcessedImage)
    (result : AIAnalysisResult) :
    (handleAiGuess prev (.ok result)).1.locationInfo =
      some { city := none, state := none, country := none,
             displayName := result.locationName } := rfl

end GeoSnap
